/-
Verification of the DocuMind-AI browser client's conversational query
session against its specification.

The embedding follows the React source:
  * `Chat` component (frontend/src/components, concatenated into
    src/frontend/src/services/api.js of the snapshot): message log,
    submit handler, confidence badge, source rendering, document scope.
  * `queryService.queryDocuments` (api.js lines 174-188): request body.
  * `DocumentSummaryModal` (src/unnamed/part_002): summary lifecycle.

JavaScript numbers are modelled as rationals (ℚ); the comparisons the
claims exercise (0.8, 0.6, 0.79999, 0.59999, 0.867) agree between IEEE
doubles and exact rationals.  `Date.now()` readings are modelled as an
abstract millisecond clock (ℕ) supplied by the environment.  React
`useState` state is modelled as explicit record state; each event
handler becomes a state-transition function.
-/
import Mathlib

namespace DocuMind

/-- Role of a chat message: the source stores `type: 'user'` or `type: 'bot'`. -/
inductive MsgType where
  | user : MsgType
  | bot : MsgType
deriving DecidableEq

/-- A source citation, `{filename, similarity_score}` (api.js / §6 wire contract). -/
structure Source where
  filename : String
  similarity_score : ℚ
deriving DecidableEq

/-- A chat log entry as built by `handleSubmit`.  User messages carry no
`sources`/`confidence` fields in the source (accessing them yields
`undefined`); they are modelled as `[]` and `none`, which is what every
reader of those fields observes through the `message.sources &&` and
`message.confidence !== undefined` guards. -/
structure Message where
  id : ℕ
  mtype : MsgType
  content : String
  sources : List Source
  confidence : Option ℚ
deriving DecidableEq

/-- Outbound conversation turn `{role, content}` (api.js lines 730-733). -/
structure ConversationTurn where
  role : String
  content : String
deriving DecidableEq

/-- Body of `POST /query` as assembled by `queryService.queryDocuments`
(api.js lines 175-186).  `document_id = none` models the field being
omitted from the JSON object. -/
structure Request where
  query : String
  conversation_history : List ConversationTurn
  document_id : Option String
deriving DecidableEq

/-- Response payload of `POST /query`: `{answer, sources, confidence}`.
`sources`/`confidence` may be missing (`undefined`), hence `Option`. -/
structure QueryResponse where
  answer : String
  sources : Option (List Source)
  confidence : Option ℚ
deriving DecidableEq

/-- A document list entry, `{document_id, filename}` projection of the
`GET /documents` payload (only these two fields matter to the Chat
component's scope logic). -/
structure Doc where
  document_id : String
  filename : String
deriving DecidableEq

/-- Whitespace recognised by the model of JavaScript's
`String.prototype.trim` (the common ASCII whitespace characters). -/
def jsWhitespaceChar (c : Char) : Bool :=
  c = ' ' || c = '\t' || c = '\n' || c = '\r'

/-- Model of JavaScript's `String.prototype.trim`: strip leading and
trailing whitespace. -/
def jsTrim (s : String) : String :=
  String.mk (((s.data.dropWhile jsWhitespaceChar).reverse.dropWhile jsWhitespaceChar).reverse)

/-- Models the JavaScript expression `selectedDocument || undefined`
(api.js line 738): for strings, `''` is falsy and becomes `undefined`. -/
def jsStringOrUndefined (s : String) : Option String :=
  if s = "" then none else some s

/-- `queryService.queryDocuments` (api.js lines 175-186): builds the
request body; `document_id` is added only when `if (documentId)` is
truthy, i.e. `documentId` is neither `null`/`undefined` nor `''`. -/
def queryDocumentsBody (query : String) (conversationHistory : List ConversationTurn)
    (documentId : Option String) : Request :=
  { query := query
    conversation_history := conversationHistory
    document_id :=
      match documentId with
      | none => none
      | some d => if d = "" then none else some d }

/-- The `messages.map(msg => ({role: ..., content: msg.content}))`
projection (api.js lines 730-733). -/
def projectTurn (m : Message) : ConversationTurn :=
  { role := if m.mtype = MsgType.user then "user" else "assistant"
    content := m.content }

/-- The user message object built at api.js lines 718-723; `t` is the
`Date.now()` reading. -/
def mkUserMessage (t : ℕ) (content : String) : Message :=
  { id := t, mtype := MsgType.user, content := content, sources := [], confidence := none }

/-- The bot message object built at api.js lines 741-748 on success;
`t` is the `Date.now()` reading at response time (`id: Date.now() + 1`).
`response.sources || []` defaults a missing list. -/
def mkBotMessage (t : ℕ) (r : QueryResponse) : Message :=
  { id := t + 1, mtype := MsgType.bot, content := r.answer
    sources := r.sources.getD [], confidence := r.confidence }

/-- Fixed apology content of the fallback message (api.js line 758). -/
def apologyText : String :=
  "I apologize, but I encountered an error while processing your request. Please try again."

/-- Text of the transient error notification `toast.error(...)` (api.js line 753). -/
def failToastText : String := "Failed to get response. Please try again."

/-- The fallback assistant message built at api.js lines 755-762 on
failure; note the source sets `confidence: 0`, not `undefined`. -/
def fallbackMessage (t : ℕ) : Message :=
  { id := t + 1, mtype := MsgType.bot, content := apologyText
    sources := [], confidence := some 0 }

/-- The Chat component's state (api.js lines 674-682): message log,
input box, `loading` flag, the selected document scope (`''` = all
documents) and the document list.  `toasts` records the transient
notifications emitted so far. -/
structure ChatState where
  messages : List Message
  input : String
  loading : Bool
  selectedDocument : String
  documents : List Doc
  toasts : List String
deriving DecidableEq

/-- Typing into the input box (`onChange`, api.js line 1045). -/
def setInput (s : ChatState) (q : String) : ChatState := { s with input := q }

/-- Choosing a scope from the dropdown (api.js lines 958-975). -/
def selectDocumentOp (s : ChatState) (d : String) : ChatState :=
  { s with selectedDocument := d }

/-- `loadDocuments` (api.js lines 705-712): replaces the document list
with `response.documents || []`.  No other state is touched. -/
def loadDocumentsOp (s : ChatState) (respDocuments : Option (List Doc)) : ChatState :=
  { s with documents := respDocuments.getD [] }

/-- First, synchronous half of `handleSubmit` (api.js lines 714-739), up
to the `await`: the guard `if (!input.trim() || loading) return;`
rejects the submit; otherwise the user message is appended, the input
cleared, `loading` set, and the query request assembled from the log
*as it stood before the append* (the `messages` binding captured at
render time) and the trimmed input.  `t` is the `Date.now()` reading.
Returns the new state and the emitted request (`none` when rejected). -/
def submitStart (s : ChatState) (t : ℕ) : ChatState × Option Request :=
  if jsTrim s.input = "" ∨ s.loading then (s, none)
  else
    ({ s with
        messages := s.messages ++ [mkUserMessage t (jsTrim s.input)]
        input := ""
        loading := true },
     some (queryDocumentsBody (jsTrim s.input) (s.messages.map projectTurn)
            (jsStringOrUndefined s.selectedDocument)))

/-- Success continuation of `handleSubmit` (api.js lines 741-750 and the
`finally` at 765-767): appends the bot message and clears `loading`.
`t` is the `Date.now()` reading at response time. -/
def resolveOk (s : ChatState) (t : ℕ) (r : QueryResponse) : ChatState :=
  { s with messages := s.messages ++ [mkBotMessage t r], loading := false }

/-- Failure continuation of `handleSubmit` (api.js lines 751-767):
emits the toast, appends the fallback message, clears `loading`. -/
def resolveErr (s : ChatState) (t : ℕ) : ChatState :=
  { s with
      messages := s.messages ++ [fallbackMessage t]
      toasts := s.toasts ++ [failToastText]
      loading := false }

/-- `getConfidenceText` (api.js lines 794-798). -/
def getConfidenceText (confidence : ℚ) : String :=
  if 8/10 ≤ confidence then "High"
  else if 6/10 ≤ confidence then "Medium"
  else "Low"

/-- The confidence badge as rendered (api.js line 886 together with
`getConfidenceText`): the badge is shown only when
`message.confidence !== undefined`; an absent confidence renders no
badge, which the spec calls bucket `Unknown`. -/
def confidenceBucket (c : Option ℚ) : String :=
  match c with
  | none => "Unknown"
  | some v => getConfidenceText v

/-- Models `x.toFixed(1)` for a nonnegative number: round to the
nearest tenth (ties up, which agrees with JS on all inputs whose scaled
value is not an exact half) and print with exactly one digit after the
point. -/
def toFixed1 (q : ℚ) : String :=
  let n : ℤ := ⌊q * 10 + 1/2⌋
  toString (n / 10) ++ "." ++ toString (n % 10)

/-- The source line rendered at api.js line 877:
`{source.filename} (similarity: {(source.similarity_score * 100).toFixed(1)}%)`. -/
def formatSource (s : Source) : String :=
  s.filename ++ " (similarity: " ++ toFixed1 (s.similarity_score * 100) ++ "%)"

/-- The data of one full successful submission turn: the text typed into
the input box, the `Date.now()` readings at submit time and at response
time, and the response payload. -/
structure TurnInput where
  q : String
  t1 : ℕ
  t2 : ℕ
  resp : QueryResponse
deriving DecidableEq

/-- One full successful turn: type the question, run the synchronous
half of `handleSubmit`, then the success continuation. -/
def runTurn (s : ChatState) (tu : TurnInput) : ChatState :=
  resolveOk (submitStart (setInput s tu.q) tu.t1).1 tu.t2 tu.resp

/-- A sequence of full successful turns. -/
def runTurns (s : ChatState) : List TurnInput → ChatState
  | [] => s
  | tu :: rest => runTurns (runTurn s tu) rest

/-- The two messages a successful turn appends to the log. -/
def turnMsgs (tu : TurnInput) : List Message :=
  [mkUserMessage tu.t1 (jsTrim tu.q), mkBotMessage tu.t2 tu.resp]

/-- The Chat component starts with an empty log, empty input, no scope,
no documents and `loading = false` (api.js lines 674-682). -/
def emptyChat : ChatState :=
  { messages := [], input := "", loading := false, selectedDocument := ""
    documents := [], toasts := [] }

/-- Clock discipline under which the `Date.now()`-derived message ids
are strictly increasing: within a turn the response reading is not
before the submit reading, and each new submit happens at least 2 ms
after the previous turn's response (because the bot id is the response
reading plus one). -/
def WellClocked (ts : List TurnInput) : Prop :=
  (∀ tu ∈ ts, tu.t1 ≤ tu.t2) ∧ List.Chain' (fun a b => a.t2 + 2 ≤ b.t1) ts

/-! ## Document summary modal (src/unnamed/part_002, `DocumentSummaryModal`) -/

/-- State of the `DocumentSummaryModal` component: the `isOpen` and
`document` props plus the `loading`, `summaryData`, `error` hooks
(part_002 lines 6-9).  The summary payload is kept opaque as a string.
`pendingRequests` counts the `summarizeDocument` network calls that
have been issued but not yet completed; `toasts` records emitted
notifications. -/
structure ModalState where
  isOpen : Bool
  doc : Option Doc
  loading : Bool
  summaryData : Option String
  error : Option String
  pendingRequests : ℕ
  toasts : List String
deriving DecidableEq

/-- Error text set by `generateSummary`'s catch block (part_002 line 21). -/
def summaryErrorText : String := "Failed to generate document summary. Please try again."

/-- Toast on summarization success (part_002 line 19). -/
def summarySuccessToast : String := "Document summary generated successfully!"

/-- Toast on summarization failure (part_002 line 22). -/
def summaryFailToast : String := "Failed to generate document summary"

/-- Synchronous prefix of `generateSummary` (part_002 lines 11-17): the
`if (!document) return;` guard, then `setLoading(true)`,
`setError(null)`, and the network call is issued (pending count up). -/
def generateSummary (s : ModalState) : ModalState :=
  match s.doc with
  | none => s
  | some _ => { s with loading := true, error := none, pendingRequests := s.pendingRequests + 1 }

/-- A user- or effect-level trigger of `generateSummary`.  Every call
site is guarded against the `loading` state: the auto-generate effect
checks `!loading` (part_002 line 31), the Generate/Regenerate buttons
carry `disabled={loading}` (lines 134, 323), and while `loading` the
content area renders only the spinner with no button at all (lines
87-101).  So a trigger arriving while `loading` does nothing. -/
def requestSummary (s : ModalState) : ModalState :=
  if s.loading then s else generateSummary s

/-- Completion of a `summarizeDocument` call that resolved successfully
(part_002 lines 18-19 and the `finally` at 24-26):
`setSummaryData(response.summary)`, success toast, `setLoading(false)`.
These state updates run whenever the promise resolves, whether or not
the modal is still open. -/
def completeOk (s : ModalState) (summary : String) : ModalState :=
  { s with
      summaryData := some summary
      toasts := s.toasts ++ [summarySuccessToast]
      loading := false
      pendingRequests := s.pendingRequests - 1 }

/-- Completion of a `summarizeDocument` call that rejected (part_002
lines 20-26): `setError(...)`, failure toast, `setLoading(false)`. -/
def completeErr (s : ModalState) : ModalState :=
  { s with
      error := some summaryErrorText
      toasts := s.toasts ++ [summaryFailToast]
      loading := false
      pendingRequests := s.pendingRequests - 1 }

/-- Closing the modal: `isOpen` becomes false and the reset effect
(part_002 lines 37-43) clears `summaryData`, `error` and `loading`.
Nothing cancels or invalidates an in-flight request: `pendingRequests`
is untouched and a later completion still applies its updates. -/
def resetOnClose (s : ModalState) : ModalState :=
  { s with isOpen := false, summaryData := none, error := none, loading := false }

/-! ## Helper lemmas -/

/-- One successful turn appends exactly its user and bot messages and
leaves `loading` false. -/
lemma runTurn_messages (s : ChatState) (tu : TurnInput)
    (hl : s.loading = false) (hq : jsTrim tu.q ≠ "") :
    (runTurn s tu).messages = s.messages ++ turnMsgs tu ∧ (runTurn s tu).loading = false := by
  simp [runTurn, setInput, submitStart, resolveOk, hq, hl, turnMsgs]

/-- Characterization of a sequence of successful turns: the log grows by
exactly the turns' messages, in order, and `loading` ends false. -/
lemma runTurns_spec : ∀ (ts : List TurnInput) (s : ChatState), s.loading = false →
    (∀ tu ∈ ts, jsTrim tu.q ≠ "") →
    (runTurns s ts).messages = s.messages ++ ts.flatMap turnMsgs ∧
      (runTurns s ts).loading = false := by
  intro ts
  induction ts with
  | nil => intro s hl _; simpa [runTurns] using hl
  | cons tu rest ih =>
    intro s hl hts
    have hq : jsTrim tu.q ≠ "" := hts tu (by simp)
    have hstep := runTurn_messages s tu hl hq
    have hrest := ih (runTurn s tu) hstep.2 (fun x hx => hts x (by simp [hx]))
    refine ⟨?_, ?_⟩
    · rw [runTurns, hrest.1, hstep.1]
      simp
    · rw [runTurns]; exact hrest.2

/-- A turn contributes two messages to the log. -/
lemma bind_turnMsgs_length : ∀ ts : List TurnInput, (ts.flatMap turnMsgs).length = 2 * ts.length := by
  intro ts
  induction ts with
  | nil => simp
  | cons tu rest ih => simp [turnMsgs, ih]; omega

/-- The ids of the messages a turn sequence appends are the submit
reading and the response reading plus one, per turn. -/
lemma map_id_bind_turnMsgs : ∀ ts : List TurnInput,
    (ts.flatMap turnMsgs).map Message.id = ts.flatMap fun tu => [tu.t1, tu.t2 + 1] := by
  intro ts
  induction ts with
  | nil => simp
  | cons tu rest ih => simp [turnMsgs, mkUserMessage, mkBotMessage, ih]

/-- Under the clock discipline the produced ids are strictly increasing. -/
lemma chain_ids_of_wellClocked : ∀ ts : List TurnInput, WellClocked ts →
    List.Chain' (fun a b => a < b) (ts.flatMap fun tu => [tu.t1, tu.t2 + 1]) := by
  intro ts
  induction ts with
  | nil => intro _; simp
  | cons tu rest ih =>
    rintro ⟨h1, h2⟩
    have htu : tu.t1 ≤ tu.t2 := h1 tu (by simp)
    have hrest : WellClocked rest := ⟨fun x hx => h1 x (by simp [hx]), h2.tail⟩
    have ihc := ih hrest
    cases rest with
    | nil => simp [List.chain'_cons]; omega
    | cons b r =>
      have hgap : tu.t2 + 2 ≤ b.t1 := (List.chain'_cons.mp h2).1
      have hexp : ((tu :: b :: r).flatMap fun x => [x.t1, x.t2 + 1]) =
          tu.t1 :: (tu.t2 + 1) :: ((b :: r).flatMap fun x => [x.t1, x.t2 + 1]) := by simp
      have hexp2 : ((b :: r).flatMap fun x => [x.t1, x.t2 + 1]) =
          b.t1 :: (b.t2 + 1) :: (r.flatMap fun x => [x.t1, x.t2 + 1]) := by simp
      rw [hexp, List.chain'_cons]
      refine ⟨by omega, ?_⟩
      rw [hexp2, List.chain'_cons]
      refine ⟨by omega, ?_⟩
      rw [← hexp2]
      exact ihc

/-! ## Claim theorems -/

/-- C6: for every confidence value, the rendered bucket is High from 0.8
up, Medium from 0.6 up to below 0.8, Low below 0.6, and Unknown (no
badge) when the confidence is absent; every lower bound is inclusive. -/
theorem confidence_bucket_boundaries (c : ℚ) :
    ((8 : ℚ)/10 ≤ c → getConfidenceText c = "High") ∧
    ((6 : ℚ)/10 ≤ c → c < (8 : ℚ)/10 → getConfidenceText c = "Medium") ∧
    (c < (6 : ℚ)/10 → getConfidenceText c = "Low") ∧
    confidenceBucket none = "Unknown" ∧
    (∀ v : ℚ, confidenceBucket (some v) = getConfidenceText v) := by
  refine ⟨?_, ?_, ?_, rfl, fun v => rfl⟩
  · intro h
    rw [getConfidenceText, if_pos h]
  · intro h1 h2
    rw [getConfidenceText, if_neg (not_le.mpr h2), if_pos h1]
  · intro h
    have h8 : ¬ (8 : ℚ)/10 ≤ c := not_le.mpr (h.trans_le (by norm_num))
    rw [getConfidenceText, if_neg h8, if_neg (not_le.mpr h)]

/-- C6 witness: the boundary cases 0.8, 0.79999, 0.6, 0.59999 and the
absent case. -/
theorem confidence_bucket_boundaries_witness :
    getConfidenceText ((8 : ℚ)/10) = "High" ∧
    getConfidenceText ((79999 : ℚ)/100000) = "Medium" ∧
    getConfidenceText ((6 : ℚ)/10) = "Medium" ∧
    getConfidenceText ((59999 : ℚ)/100000) = "Low" ∧
    confidenceBucket none = "Unknown" :=
  ⟨(confidence_bucket_boundaries ((8 : ℚ)/10)).1 (by norm_num),
   (confidence_bucket_boundaries ((79999 : ℚ)/100000)).2.1 (by norm_num) (by norm_num),
   (confidence_bucket_boundaries ((6 : ℚ)/10)).2.1 (by norm_num) (by norm_num),
   (confidence_bucket_boundaries ((59999 : ℚ)/100000)).2.2.1 (by norm_num),
   (confidence_bucket_boundaries 0).2.2.2.1⟩

/-- C8: a source renders as the filename followed by the similarity
score as a percentage with exactly one decimal place; 0.867 renders
as 86.7% and 0.5 keeps its one decimal digit as 50.0%. -/
theorem formatSource_rendering :
    formatSource ⟨"report.pdf", 867/1000⟩ = "report.pdf (similarity: 86.7%)" ∧
    formatSource ⟨"budget.txt", 1/2⟩ = "budget.txt (similarity: 50.0%)" := by
  constructor
  · have h : (⌊(867 : ℚ)/1000 * 100 * 10 + 1/2⌋ : ℤ) = 867 := by norm_num
    simp only [formatSource, toFixed1, h]
    rfl
  · have h : (⌊(1 : ℚ)/2 * 100 * 10 + 1/2⌋ : ℤ) = 500 := by norm_num
    simp only [formatSource, toFixed1, h]
    rfl

/-- C10: the `document_id` field of the query body is present exactly
for a non-empty selected id; `null`, `undefined` and the empty string
(the UI value for all documents) all omit it, and the empty-string
scope produces the same request as an unscoped query. -/
theorem document_id_field_presence (q : String) (h : List ConversationTurn) (sel : String) :
    (queryDocumentsBody q h (jsStringOrUndefined sel)).document_id
      = (queryDocumentsBody q h (some sel)).document_id ∧
    ((queryDocumentsBody q h (some sel)).document_id = none ↔ sel = "") ∧
    (queryDocumentsBody q h none).document_id = none ∧
    (sel ≠ "" → (queryDocumentsBody q h (some sel)).document_id = some sel) ∧
    queryDocumentsBody q h (jsStringOrUndefined "") = queryDocumentsBody q h none := by
  by_cases hsel : sel = "" <;>
    simp [queryDocumentsBody, jsStringOrUndefined, hsel]

/-- C10 witness: a non-empty selected id is sent, and the empty-string
scope is omitted. -/
theorem document_id_field_presence_witness :
    ¬ ("doc-123" : String) = "" ∧
    (queryDocumentsBody "q" [] (some "doc-123")).document_id = some "doc-123" ∧
    queryDocumentsBody "q" [] (jsStringOrUndefined "") = queryDocumentsBody "q" [] none :=
  ⟨by decide,
   (document_id_field_presence "q" [] "doc-123").2.2.2.1 (by decide),
   (document_id_field_presence "q" [] "doc-123").2.2.2.2⟩

/-- C1: the conversation history sent with a submission is exactly the
role/content projection of the log as it stood before the submission,
in order; the in-flight user message is appended to the log after the
history was taken and is sent only as the separate `query` field. -/
theorem history_projection_excludes_inflight (s : ChatState) (t : ℕ)
    (hq : jsTrim s.input ≠ "") (hl : s.loading = false) :
    ((submitStart s t).2.map Request.conversation_history)
      = some (s.messages.map projectTurn) ∧
    ((submitStart s t).2.map Request.query) = some (jsTrim s.input) ∧
    (submitStart s t).1.messages = s.messages ++ [mkUserMessage t (jsTrim s.input)] ∧
    ((submitStart s t).2.map fun r => r.conversation_history.length)
      = some s.messages.length := by
  simp [submitStart, queryDocumentsBody, hq, hl]

/-- A two-message log with a fresh question typed into the input box. -/
def c1state : ChatState :=
  { messages := [⟨100, MsgType.user, "hi", [], none⟩, ⟨105, MsgType.bot, "hello", [], none⟩]
    input := " What is the revenue? ", loading := false, selectedDocument := ""
    documents := [], toasts := [] }

/-- C1 witness: a concrete submission over a two-message log. -/
theorem history_projection_excludes_inflight_witness :
    jsTrim c1state.input ≠ "" ∧ c1state.loading = false ∧
    (((submitStart c1state 200).2.map Request.conversation_history)
        = some (c1state.messages.map projectTurn) ∧
     ((submitStart c1state 200).2.map Request.query) = some (jsTrim c1state.input) ∧
     (submitStart c1state 200).1.messages
        = c1state.messages ++ [mkUserMessage 200 (jsTrim c1state.input)] ∧
     ((submitStart c1state 200).2.map fun r => r.conversation_history.length)
        = some c1state.messages.length) :=
  ⟨by decide, rfl, history_projection_excludes_inflight c1state 200 (by decide) rfl⟩

/-- C2 (amended): a failed submission appends exactly one fallback
assistant message with the fixed apology text, empty sources and
confidence 0 — bucket Low, not absent/Unknown —, leaves the user's
message unchanged at its position, emits the transient error toast and
clears the submitting flag. -/
theorem failed_submission_fallback (s : ChatState) (t1 t2 : ℕ)
    (hq : jsTrim s.input ≠ "") (hl : s.loading = false) :
    (resolveErr (submitStart s t1).1 t2).messages
      = s.messages ++ [mkUserMessage t1 (jsTrim s.input), fallbackMessage t2] ∧
    (resolveErr (submitStart s t1).1 t2).messages[s.messages.length]?
      = some (mkUserMessage t1 (jsTrim s.input)) ∧
    (fallbackMessage t2).content = apologyText ∧
    (fallbackMessage t2).sources = [] ∧
    (fallbackMessage t2).confidence = some 0 ∧
    confidenceBucket (fallbackMessage t2).confidence = "Low" ∧
    (resolveErr (submitStart s t1).1 t2).toasts = s.toasts ++ [failToastText] ∧
    (resolveErr (submitStart s t1).1 t2).loading = false := by
  have hmain : (resolveErr (submitStart s t1).1 t2).messages
      = s.messages ++ [mkUserMessage t1 (jsTrim s.input), fallbackMessage t2] := by
    simp [submitStart, resolveErr, hq, hl]
  refine ⟨hmain, ?_, rfl, rfl, rfl, ?_, ?_, ?_⟩
  · rw [hmain, List.getElem?_append_right (le_refl _)]
    simp
  · norm_num [fallbackMessage, confidenceBucket, getConfidenceText]
  · simp [submitStart, resolveErr, hq, hl]
  · simp [submitStart, resolveErr, hq, hl]

/-- An empty session with a question typed in. -/
def c2state : ChatState := { emptyChat with input := "What is the revenue?" }

/-- C2 counterexample: the claim says the fallback message's confidence
is absent (bucket Unknown); in the code it is 0, whose bucket is Low. -/
theorem failed_submission_confidence_cex :
    (resolveErr (submitStart c2state 100).1 200).messages.map Message.confidence
      = [none, some 0] ∧
    confidenceBucket (some 0) = "Low" ∧
    ¬ confidenceBucket (some 0) = "Unknown" := by
  have hb : confidenceBucket (some 0) = "Low" := by
    norm_num [confidenceBucket, getConfidenceText]
  exact ⟨by decide, hb, by rw [hb]; decide⟩

/-- C2 witness: the concrete failing turn of the spec's scenario. -/
theorem failed_submission_fallback_witness :
    jsTrim c2state.input ≠ "" ∧ c2state.loading = false ∧
    ((resolveErr (submitStart c2state 100).1 200).messages
        = c2state.messages ++ [mkUserMessage 100 (jsTrim c2state.input), fallbackMessage 200] ∧
     (resolveErr (submitStart c2state 100).1 200).messages[c2state.messages.length]?
        = some (mkUserMessage 100 (jsTrim c2state.input)) ∧
     (fallbackMessage 200).content = apologyText ∧
     (fallbackMessage 200).sources = [] ∧
     (fallbackMessage 200).confidence = some 0 ∧
     confidenceBucket (fallbackMessage 200).confidence = "Low" ∧
     (resolveErr (submitStart c2state 100).1 200).toasts = c2state.toasts ++ [failToastText] ∧
     (resolveErr (submitStart c2state 100).1 200).loading = false) :=
  ⟨by decide, rfl, failed_submission_fallback c2state 100 200 (by decide) rfl⟩

/-- The document shown in the summary modal fixtures. -/
def modalDoc : Doc := ⟨"doc-1", "report.pdf"⟩

/-- An open summary modal with no request yet. -/
def c3open : ModalState :=
  { isOpen := true, doc := some modalDoc, loading := false, summaryData := none
    error := none, pendingRequests := 0, toasts := [] }

/-- C3 counterexample: a request started, the modal closed (reset) while
it is in flight, and the late completion still installs its result —
the summary state ends `ready("stale summary")`, not absent. -/
theorem reset_discard_cex :
    (requestSummary c3open).loading = true ∧
    (resetOnClose (requestSummary c3open)).summaryData = none ∧
    (completeOk (resetOnClose (requestSummary c3open)) "stale summary").summaryData
      = some "stale summary" ∧
    ¬ (completeOk (resetOnClose (requestSummary c3open)) "stale summary").summaryData
      = none := by
  decide

/-- C3 (amended): reset clears the summary state at reset time but does
not cancel or invalidate the in-flight request; a completion arriving
after the reset still applies its result, so the state ends ready (or
error) with the stale payload rather than absent. -/
theorem late_completion_not_discarded (s : ModalState) (d : Doc) (sum : String)
    (hl : s.loading = false) (hd : s.doc = some d) :
    (requestSummary s).loading = true ∧
    (requestSummary s).pendingRequests = s.pendingRequests + 1 ∧
    (resetOnClose (requestSummary s)).summaryData = none ∧
    (completeOk (resetOnClose (requestSummary s)) sum).summaryData = some sum ∧
    (completeOk (resetOnClose (requestSummary s)) sum).loading = false ∧
    (completeErr (resetOnClose (requestSummary s))).error = some summaryErrorText := by
  simp [requestSummary, generateSummary, resetOnClose, completeOk, completeErr, hd, hl]

/-- C3 witness: the counterexample trace through the amended theorem. -/
theorem late_completion_not_discarded_witness :
    c3open.loading = false ∧ c3open.doc = some modalDoc ∧
    ((requestSummary c3open).loading = true ∧
     (requestSummary c3open).pendingRequests = c3open.pendingRequests + 1 ∧
     (resetOnClose (requestSummary c3open)).summaryData = none ∧
     (completeOk (resetOnClose (requestSummary c3open)) "stale").summaryData = some "stale" ∧
     (completeOk (resetOnClose (requestSummary c3open)) "stale").loading = false ∧
     (completeErr (resetOnClose (requestSummary c3open))).error = some summaryErrorText) :=
  ⟨rfl, rfl, late_completion_not_discarded c3open modalDoc "stale" rfl rfl⟩

/-- C4: a summarization trigger while the state is already loading is a
no-op, so two triggers in a row issue exactly one network call. -/
theorem requestSummary_single_flight (s : ModalState) (d : Doc)
    (hl : s.loading = false) (hd : s.doc = some d) :
    (requestSummary s).loading = true ∧
    (requestSummary s).pendingRequests = s.pendingRequests + 1 ∧
    requestSummary (requestSummary s) = requestSummary s ∧
    (requestSummary (requestSummary s)).pendingRequests = s.pendingRequests + 1 ∧
    (∀ s2 : ModalState, s2.loading = true → requestSummary s2 = s2) := by
  have hload : (requestSummary s).loading = true := by
    simp [requestSummary, generateSummary, hd, hl]
  have hpend : (requestSummary s).pendingRequests = s.pendingRequests + 1 := by
    simp [requestSummary, generateSummary, hd, hl]
  have hnoop : ∀ s2 : ModalState, s2.loading = true → requestSummary s2 = s2 :=
    fun s2 h2 => by simp [requestSummary, h2]
  have hidem : requestSummary (requestSummary s) = requestSummary s := hnoop _ hload
  exact ⟨hload, hpend, hidem, by rw [hidem]; exact hpend, hnoop⟩

/-- C4 witness: double trigger from the idle open modal. -/
theorem requestSummary_single_flight_witness :
    c3open.loading = false ∧ c3open.doc = some modalDoc ∧
    ((requestSummary c3open).loading = true ∧
     (requestSummary c3open).pendingRequests = c3open.pendingRequests + 1 ∧
     requestSummary (requestSummary c3open) = requestSummary c3open ∧
     (requestSummary (requestSummary c3open)).pendingRequests = c3open.pendingRequests + 1 ∧
     (∀ s2 : ModalState, s2.loading = true → requestSummary s2 = s2)) :=
  ⟨rfl, rfl, requestSummary_single_flight c3open modalDoc rfl rfl⟩

/-- Fixture documents for the scope claims. -/
def doc123 : Doc := ⟨"doc-123", "q3-report.pdf"⟩

/-- A refreshed document list that no longer contains doc-123. -/
def doc999 : Doc := ⟨"doc-999", "other.pdf"⟩

/-- Chat state with doc-123 selected as the query scope. -/
def c5state : ChatState :=
  { emptyChat with documents := [doc123], selectedDocument := "doc-123" }

/-- C5 counterexample: refreshing the document list to one without the
selected id leaves the scope at the stale id instead of resetting it. -/
theorem scope_reset_cex :
    (loadDocumentsOp c5state (some [doc999])).selectedDocument = "doc-123" ∧
    (loadDocumentsOp c5state (some [doc999])).documents.map Doc.document_id = ["doc-999"] ∧
    ¬ ((loadDocumentsOp c5state (some [doc999])).selectedDocument = "" ∨
       (loadDocumentsOp c5state (some [doc999])).selectedDocument ∈
         (loadDocumentsOp c5state (some [doc999])).documents.map Doc.document_id) := by
  decide

/-- C5 (amended): `loadDocuments` replaces the document list and leaves
the selected scope untouched; when the new list no longer contains the
selected id, the scope keeps the stale non-null id — it is not reset —
so the spec's scope invariant does not hold after a refresh. -/
theorem refresh_keeps_stale_scope (s : ChatState) (l : List Doc)
    (hsel : s.selectedDocument ≠ "")
    (habs : s.selectedDocument ∉ l.map Doc.document_id) :
    (loadDocumentsOp s (some l)).selectedDocument = s.selectedDocument ∧
    (loadDocumentsOp s (some l)).documents = l ∧
    (loadDocumentsOp s (some l)).selectedDocument ≠ "" ∧
    (loadDocumentsOp s (some l)).selectedDocument ∉
      (loadDocumentsOp s (some l)).documents.map Doc.document_id := by
  refine ⟨rfl, rfl, hsel, ?_⟩
  simpa [loadDocumentsOp] using habs

/-- C5 witness: the concrete stale-scope refresh. -/
theorem refresh_keeps_stale_scope_witness :
    c5state.selectedDocument ≠ "" ∧
    c5state.selectedDocument ∉ [doc999].map Doc.document_id ∧
    ((loadDocumentsOp c5state (some [doc999])).selectedDocument = c5state.selectedDocument ∧
     (loadDocumentsOp c5state (some [doc999])).documents = [doc999] ∧
     (loadDocumentsOp c5state (some [doc999])).selectedDocument ≠ "" ∧
     (loadDocumentsOp c5state (some [doc999])).selectedDocument ∉
       (loadDocumentsOp c5state (some [doc999])).documents.map Doc.document_id) :=
  ⟨by decide, by decide, refresh_keeps_stale_scope c5state [doc999] (by decide) (by decide)⟩

/-- C7: a sequence of N successful submissions appends exactly the N
user/assistant message pairs in submission order (so the log length is
the initial length plus 2N) and ends with the submitting flag false;
a submit with a whitespace-only question, or issued while one is in
flight, is rejected without touching the state or emitting a request. -/
theorem successful_submissions_log_shape (s : ChatState) (ts : List TurnInput)
    (hl : s.loading = false) (hts : ∀ tu ∈ ts, jsTrim tu.q ≠ "") :
    (runTurns s ts).messages = s.messages ++ ts.flatMap turnMsgs ∧
    (runTurns s ts).messages.length = s.messages.length + 2 * ts.length ∧
    (runTurns s ts).loading = false ∧
    (∀ (s2 : ChatState) (t : ℕ), jsTrim s2.input = "" ∨ s2.loading = true →
      submitStart s2 t = (s2, none)) := by
  have h := runTurns_spec ts s hl hts
  refine ⟨h.1, ?_, h.2, ?_⟩
  · rw [h.1, List.length_append, bind_turnMsgs_length]
  · rintro s2 t (h2 | h2) <;> simp [submitStart, h2]

/-- First response fixture for the turn-sequence witnesses. -/
def c7resp1 : QueryResponse := ⟨"Revenue was 42M.", some [⟨"q3-report.pdf", 1⟩], some 1⟩

/-- Second response fixture, with `sources`/`confidence` missing. -/
def c7resp2 : QueryResponse := ⟨"Profit was 10M.", none, none⟩

/-- Two consecutive successful submissions. -/
def c7turns : List TurnInput :=
  [⟨"What is the revenue?", 100, 150, c7resp1⟩, ⟨" And profit? ", 300, 420, c7resp2⟩]

/-- C7 witness: two successful submissions from the empty session. -/
theorem successful_submissions_log_shape_witness :
    emptyChat.loading = false ∧ (∀ tu ∈ c7turns, jsTrim tu.q ≠ "") ∧
    ((runTurns emptyChat c7turns).messages
        = emptyChat.messages ++ c7turns.flatMap turnMsgs ∧
     (runTurns emptyChat c7turns).messages.length
        = emptyChat.messages.length + 2 * c7turns.length ∧
     (runTurns emptyChat c7turns).loading = false ∧
     (∀ (s2 : ChatState) (t : ℕ), jsTrim s2.input = "" ∨ s2.loading = true →
        submitStart s2 t = (s2, none))) :=
  ⟨rfl, by decide, successful_submissions_log_shape emptyChat c7turns rfl (by decide)⟩

/-- Response fixture for the id claims. -/
def c9resp : QueryResponse := ⟨"ok", none, none⟩

/-- Two turns whose `Date.now()` readings are nondecreasing but close:
the second submit happens one millisecond after the first response. -/
def c9turns : List TurnInput := [⟨"hi", 0, 0, c9resp⟩, ⟨"again", 1, 1, c9resp⟩]

/-- C9 counterexample: with the (perfectly possible) nondecreasing clock
readings 0, 0, 1, 1 the produced ids are 0, 1, 1, 2 — neither unique
nor strictly increasing, because ids come from `Date.now()` and
`Date.now() + 1`. -/
theorem message_ids_cex :
    List.Chain' (fun a b => a ≤ b) ([0, 0, 1, 1] : List ℕ) ∧
    (runTurns emptyChat c9turns).messages.map Message.id = [0, 1, 1, 2] ∧
    ¬ ((runTurns emptyChat c9turns).messages.map Message.id).Nodup ∧
    ¬ List.Chain' (fun a b => a < b)
        ((runTurns emptyChat c9turns).messages.map Message.id) := by
  have hids : (runTurns emptyChat c9turns).messages.map Message.id = [0, 1, 1, 2] := by
    decide
  refine ⟨?_, hids, ?_, ?_⟩
  · norm_num [List.chain'_cons]
  · rw [hids]; decide
  · rw [hids]; norm_num [List.chain'_cons]

/-- C9 (amended): message ids are unique and strictly increasing
provided the millisecond clock advances by at least 2 between a turn's
response and the next turn's submit (and does not go backwards within a
turn); the log itself is append-only by construction. -/
theorem message_ids_monotone_wellClocked (ts : List TurnInput)
    (hc : WellClocked ts) (hts : ∀ tu ∈ ts, jsTrim tu.q ≠ "") :
    List.Chain' (fun a b => a < b) ((runTurns emptyChat ts).messages.map Message.id) ∧
    ((runTurns emptyChat ts).messages.map Message.id).Nodup := by
  have hm := (runTurns_spec ts emptyChat rfl hts).1
  have hchain : List.Chain' (fun a b => a < b)
      ((runTurns emptyChat ts).messages.map Message.id) := by
    rw [hm]
    simp only [emptyChat, List.nil_append]
    rw [map_id_bind_turnMsgs]
    exact chain_ids_of_wellClocked ts hc
  refine ⟨hchain, ?_⟩
  have hp := List.chain'_iff_pairwise.mp hchain
  exact hp.imp fun h => Nat.ne_of_lt h

/-- Two well-spaced turns for the id monotonicity witness. -/
def c9goodTurns : List TurnInput := [⟨"hi", 0, 5, c9resp⟩, ⟨"more", 10, 11, c9resp⟩]

/-- C9 witness: a well-clocked two-turn run has strictly increasing ids. -/
theorem message_ids_monotone_wellClocked_witness :
    WellClocked c9goodTurns ∧ (∀ tu ∈ c9goodTurns, jsTrim tu.q ≠ "") ∧
    (List.Chain' (fun a b => a < b)
        ((runTurns emptyChat c9goodTurns).messages.map Message.id) ∧
     ((runTurns emptyChat c9goodTurns).messages.map Message.id).Nodup) := by
  have hwc : WellClocked c9goodTurns := by
    refine ⟨by decide, ?_⟩
    norm_num [c9goodTurns, List.chain'_cons]
  exact ⟨hwc, by decide,
    message_ids_monotone_wellClocked c9goodTurns hwc (by decide)⟩

end DocuMind
